import Mathlib

/-!
Verification of the world-model and action-validation core of a tick-based
strategy micro-game (yare.io).  The repository's source (`src/main.ts`) is a
set of TypeScript declarations: entity interfaces (Spirit, Structure, Star,
Base, Outpost, Pylon), shape-narrowed capability views, and prose-described
per-tick economic rules.  The executable Economy Engine / Action Gateway /
World Snapshot described by the specification are not present in the source;
where a definition embeds such a missing component it is modelled from the
specification's words and marked `Modelled from the spec:` in its doc comment.
Definitions that transcribe the source declarations themselves (shapes,
capability omissions, star ids, the command surface) are taken directly from
`src/main.ts`.
-/

/-- The `Shape` enum of `src/main.ts` (lines 4-8). -/
inductive Shape
  | circles
  | squares
  | triangles
deriving DecidableEq, Repr, Fintype

/-- The ten spirit commands declared on the `Spirit` interface of
`src/main.ts` (lines 77-132). -/
inductive Op
  | energize
  | move
  | jump
  | merge
  | divide
  | lock
  | unlock
  | explode
  | shout
  | set_mark
deriving DecidableEq, Repr, Fintype

/-- Which operations each shape-narrowed capability view omits, transcribed
from the `Omit` types of `src/main.ts` lines 137-139:
`CircleSpirit = Omit<Spirit, 'lock' | 'unlock' | 'explode'>`,
`SquareSpirit = Omit<Spirit, 'merge' | 'divide' | 'explode'>`,
`TriangleSpirit = Omit<Spirit, 'merge' | 'divide' | 'lock' | 'unlock'>`. -/
def omitted : Shape → Op → Bool
  | .circles, .lock => true
  | .circles, .unlock => true
  | .circles, .explode => true
  | .squares, .merge => true
  | .squares, .divide => true
  | .squares, .explode => true
  | .triangles, .merge => true
  | .triangles, .divide => true
  | .triangles, .lock => true
  | .triangles, .unlock => true
  | _, _ => false

/-- The error taxonomy of the specification's section 7. -/
inductive GameError
  | CapabilityError
  | UnknownTargetError
  | DoubleActionError
  | StaleSnapshotError
  | EconomyInvariantError
deriving DecidableEq, Repr

/-- Modelled from the spec: the Entity Model / Action Gateway capability
check (missing from `src/`, which only declares the `Omit` view types).
"Attempting to invoke a narrowed-out capability ... fails with
`CapabilityError`"; invoking an operation through a shape's capability view
succeeds exactly when the view retains the method. -/
def invokeView (s : Shape) (o : Op) : Except GameError Unit :=
  if omitted s o then Except.error GameError.CapabilityError else Except.ok ()

/-- Parameter kinds of the spirit commands, from the declared parameter
types of `src/main.ts` lines 58-59 and 77-132 (`Target = Spirit | Structure`,
`Coordinates = [number, number]`). -/
inductive ParamKind
  | targetParam
  | spiritParam
  | coordParam
  | stringParam
  | noParam
deriving DecidableEq, Repr

/-- Return kinds available to a command signature. -/
inductive RetKind
  | voidRet
  | valueRet
deriving DecidableEq, Repr

/-- Parameter type of each spirit command, transcribed from the `Spirit`
interface of `src/main.ts`: `energize(target: Target)`,
`move(target: Coordinates)`, `jump(target: Coordinates)`,
`merge(target: Spirit)`, `divide()`, `lock()`, `unlock()`, `explode()`,
`shout(message: string)`, `set_mark(label: string)`. -/
def opSignature : Op → ParamKind
  | .energize => .targetParam
  | .move => .coordParam
  | .jump => .coordParam
  | .merge => .spiritParam
  | .divide => .noParam
  | .lock => .noParam
  | .unlock => .noParam
  | .explode => .noParam
  | .shout => .stringParam
  | .set_mark => .stringParam

/-- Return type of each spirit command, transcribed from the `Spirit`
interface of `src/main.ts`: every command is declared `: void`. -/
def opReturn : Op → RetKind
  | .energize => .voidRet
  | .move => .voidRet
  | .jump => .voidRet
  | .merge => .voidRet
  | .divide => .voidRet
  | .lock => .voidRet
  | .unlock => .voidRet
  | .explode => .voidRet
  | .shout => .voidRet
  | .set_mark => .voidRet

/-- The full command surface as a list. -/
def opList : List Op :=
  [.energize, .move, .jump, .merge, .divide, .lock, .unlock, .explode,
   .shout, .set_mark]

/-- The star ids of `src/main.ts` (lines 26-29 and the `STAR_IDS` constant
on line 200). -/
def STAR_IDS : List String :=
  ["star_zxq", "star_a2c", "star_p89", "star_nua"]

/-- The designated high-yield star, from the `Star` doc comment of
`src/main.ts` line 155: "Except for star_nua that generates 3 energy
+ 3%." -/
def isHighYield (id : String) : Bool := id == "star_nua"

/-- Round-half-up division of natural numbers: the nearest integer to
`num / den`, ties rounding up. -/
def roundHalfUpDiv (num den : Nat) : Nat := (num + den / 2) / den

/-- Modelled from the spec: the Economy Engine's `starIncome` (missing from
`src/`, whose `Star` interface only carries the doc comment "a star
generates 2 energy + 2% of its current energy (rounded to a nearest
integer). Except for star_nua that generates 3 energy + 3%").  The
specification fixes the tie rule: "rounds to nearest integer (ties round
half-up)".  In exact fixed-point arithmetic `2 + 0.02*e = (200 + 2*e)/100`
and `3 + 0.03*e = (300 + 3*e)/100`. -/
def starIncome (id : String) (energy : Nat) : Nat :=
  if isHighYield id then roundHalfUpDiv (300 + 3 * energy) 100
  else roundHalfUpDiv (200 + 2 * energy) 100

/-- Modelled from the spec: applying a star's per-tick regeneration, with
the result clamped so that `energy' = min(capacity, energy + income)`. -/
def starTick (id : String) (energy capacity : Nat) : Nat :=
  min capacity (energy + starIncome id energy)

/-- An outpost damage tier: attack range, energy cost per shot, damage per
shot. -/
structure Tier where
  range : Nat
  cost : Nat
  damage : Nat
deriving DecidableEq, Repr

/-- Modelled from the spec: the Economy Engine's `outpostDamageTier`
(missing from `src/`, whose `Outpost` interface carries the doc comments
"Outpost deals 2 damage (costing 1 energy ...) when it has less than 500
energy and 8 damage (costing 4 energy) when it has over 500 energy" and
"400 (600 if outpost's energy >= 500)").  Returns the low tier (400/1/2)
or the high tier (600/4/8) based on `energy >= 500`. -/
def outpostDamageTier (energy : Nat) : Tier :=
  if energy ≥ 500 then ⟨600, 4, 8⟩ else ⟨400, 1, 2⟩

/-- An entity's sight lists, from the `Sight` interface of `src/main.ts`
lines 190-194. -/
structure SightRec where
  friends : List String
  enemies : List String
  structures : List String
deriving DecidableEq, Repr

/-- Modelled from the spec: the Economy Engine's `baseCanProduce` (missing
from `src/`, whose `Base` interface carries the doc comment "If there is an
enemy in its sight, the base stops producing new spirits").  True iff
`sight.enemies` is empty and `base.energy >= base.current_spirit_cost`. -/
def baseCanProduce (energy cost : Nat) (sight : SightRec) : Bool :=
  sight.enemies.isEmpty && decide (energy ≥ cost)

/-- A point on the 2-D plane (the source's `Coordinates`), with integer
components. -/
structure Pos where
  x : Int
  y : Int
deriving DecidableEq, Repr

/-- Squared Euclidean distance between two points. -/
def dist2 (a b : Pos) : Int := (a.x - b.x) ^ 2 + (a.y - b.y) ^ 2

/-- A friendly spirit as seen by the pylon-healing computation: id and
position. -/
structure SpiritRec where
  id : String
  pos : Pos
deriving DecidableEq, Repr

/-- Whether a spirit lies in the pylon's healing annulus: Euclidean
distance `d` from the pylon satisfies `200 <= d <= 400`, expressed on
squared distances (`200^2 <= d^2 <= 400^2`, equivalent since both sides
are nonnegative). -/
def inAnnulus (pylonPos : Pos) (s : SpiritRec) : Bool :=
  decide (40000 ≤ dist2 pylonPos s.pos) && decide (dist2 pylonPos s.pos ≤ 160000)

/-- Modelled from the spec: the Economy Engine's `pylonHealTargets`
(missing from `src/`, whose `Pylon` interface carries the doc comment
"Pylon heals all friendly spirits that are inside the annulus area where
the smaller circle has radius 200 and the larger one 400 units").  Filters
the friendly spirits whose distance from the pylon lies in `[200, 400]`. -/
def pylonHealTargets (pylonPos : Pos) (friends : List SpiritRec) : List SpiritRec :=
  friends.filter (inAnnulus pylonPos)

/-- Modelled from the spec: one pylon healing tick.  Each selected spirit
receives 1 energy, capped by the pylon's own available energy; returns the
pylon's remaining energy and the number of spirits actually healed. -/
def pylonTick (pylonEnergy : Nat) (pylonPos : Pos) (friends : List SpiritRec) :
    Nat × Nat :=
  let healed := min (pylonHealTargets pylonPos friends).length pylonEnergy
  (pylonEnergy - healed, healed)

/-- Modelled from the spec: the Action Gateway's per-tick tracker of which
entities have already acted (missing from `src/`).  Holds the ids of the
entities whose intent has been recorded this tick. -/
structure GatewayState where
  acted : List String
deriving DecidableEq, Repr

/-- Modelled from the spec: the Action Gateway's dispatch step (missing
from `src/`).  "Record the intent for at most one dispatch per entity per
tick — an entity issuing a second action in one tick is rejected with
`DoubleActionError`."  Returns the updated tracker and whether the intent
was accepted. -/
def dispatchIntent (st : GatewayState) (entity : String) :
    GatewayState × Except GameError Unit :=
  if entity ∈ st.acted then (st, Except.error GameError.DoubleActionError)
  else ({ acted := entity :: st.acted }, Except.ok ())

/-- Modelled from the spec: processing a list of intents (entity ids, in
issue order) through the gateway, accumulating the log of intents actually
forwarded to the host.  "Forward exactly once to the host binding." -/
def runAux : List String → GatewayState → List String → GatewayState × List String
  | [], st, log => (st, log)
  | e :: rest, st, log =>
    match dispatchIntent st e with
    | (st2, Except.ok _) => runAux rest st2 (log ++ [e])
    | (st2, Except.error _) => runAux rest st2 log

/-- Modelled from the spec: a whole tick's worth of intents processed from
a fresh gateway state; returns the list of intents forwarded to the host. -/
def runIntents (intents : List String) : List String :=
  (runAux intents ⟨[]⟩ []).2

/-- A host entity record as supplied by the host globals each tick: id,
position, energy, energy capacity, sight. -/
structure EntityRec where
  id : String
  pos : Pos
  energy : Nat
  energy_capacity : Nat
  sight : SightRec
deriving DecidableEq, Repr

/-- The host-provided globals a snapshot is built from (the ambient
`declare const` globals of `src/main.ts`): bases, stars, outposts, pylons,
the player's spirit roster and the current tick counter. -/
structure HostGlobals where
  bases : List EntityRec
  stars : List EntityRec
  outposts : List EntityRec
  pylons : List EntityRec
  my_spirits : List EntityRec
  tick : Nat
deriving DecidableEq, Repr

/-- Modelled from the spec: the per-tick `WorldState` snapshot (missing
from `src/`): all entities, an id-to-entity map, and each spirit's sight
resolved into entity records, retaining the raw ids alongside. -/
structure WorldState where
  tick : Nat
  entities : List EntityRec
  byId : List (String × EntityRec)
  resolvedSights : List (String × List EntityRec)
deriving DecidableEq, Repr

/-- Resolve a list of ids against an entity list, keeping the records
found. -/
def resolveIds (entities : List EntityRec) (ids : List String) : List EntityRec :=
  ids.filterMap (fun i => entities.find? (fun e => e.id == i))

/-- Modelled from the spec: `snapshot(tick) -> WorldState` — "collects all
spirits ..., all four bases, four stars, all visible outposts/pylons,
builds id→entity maps, and resolves each entity's `sight` into resolved
object references".  Reads the host globals and returns them unchanged
beside the snapshot (the builder is read-only). -/
def buildSnapshot (g : HostGlobals) : WorldState × HostGlobals :=
  let entities := g.bases ++ g.stars ++ g.outposts ++ g.pylons ++ g.my_spirits
  let ws : WorldState :=
    { tick := g.tick
      entities := entities
      byId := entities.map (fun e => (e.id, e))
      resolvedSights := g.my_spirits.map (fun s =>
        (s.id, resolveIds entities (s.sight.friends ++ s.sight.enemies ++ s.sight.structures))) }
  (ws, g)

/-! ## Helper lemmas -/

/-- Round-half-up fixed-point division by 100 agrees with the rational
round-half-up `Nat.floor (q + 1/2)`. -/
lemma roundHalfUpDiv_eq_floor (n : Nat) :
    roundHalfUpDiv n 100 = Nat.floor ((n : ℚ) / 100 + 1 / 2) := by
  have h : ((n : ℚ) / 100 + 1 / 2) = ((n + 50 : ℕ) : ℚ) / ((100 : ℕ) : ℚ) := by
    push_cast
    ring
  rw [h, Nat.floor_div_nat, Nat.floor_natCast]
  simp [roundHalfUpDiv]

/-- A star other than `star_nua` yields the round-half-up of
`2 + 0.02 * energy`. -/
lemma starIncome_low (id : String) (e : Nat) (hid : id ≠ "star_nua") :
    starIncome id e = Nat.floor ((2 : ℚ) + 2 / 100 * e + 1 / 2) := by
  have hb : isHighYield id = false := by
    simp [isHighYield, hid]
  rw [starIncome, hb]
  simp only [Bool.false_eq_true, if_false]
  rw [roundHalfUpDiv_eq_floor]
  congr 1
  push_cast
  ring

/-- The star `star_nua` yields the round-half-up of `3 + 0.03 * energy`. -/
lemma starIncome_high (e : Nat) :
    starIncome "star_nua" e = Nat.floor ((3 : ℚ) + 3 / 100 * e + 1 / 2) := by
  have hb : isHighYield "star_nua" = true := by
    simp [isHighYield]
  rw [starIncome, hb]
  simp only [if_true]
  rw [roundHalfUpDiv_eq_floor]
  congr 1
  push_cast
  ring

/-- Invariant of the gateway loop: if the forwarded log has no duplicates
and every forwarded entity is recorded in the tracker, the same holds after
processing any further intents, the log only grows, and every intent whose
entity was not yet recorded ends up forwarded. -/
lemma runAux_inv (intents : List String) :
    ∀ st log, log.Nodup → (∀ x, x ∈ log → x ∈ st.acted) →
      ((runAux intents st log).2.Nodup
        ∧ (∀ x, x ∈ log → x ∈ (runAux intents st log).2)
        ∧ (∀ e, e ∈ intents → e ∉ st.acted → e ∈ (runAux intents st log).2)) := by
  induction intents with
  | nil =>
    intro st log h1 h2
    exact ⟨h1, fun x hx => hx, fun e he _ => absurd he (List.not_mem_nil e)⟩
  | cons a rest ih =>
    intro st log h1 h2
    by_cases ha : a ∈ st.acted
    · have hd : runAux (a :: rest) st log = runAux rest st log := by
        simp [runAux, dispatchIntent, ha]
      rw [hd]
      obtain ⟨q1, q2, q3⟩ := ih st log h1 h2
      refine ⟨q1, q2, fun e he hne => ?_⟩
      rcases List.mem_cons.mp he with h | hr
      · exact absurd (h ▸ ha) hne
      · exact q3 e hr hne
    · have hd : runAux (a :: rest) st log
          = runAux rest ⟨a :: st.acted⟩ (log ++ [a]) := by
        simp [runAux, dispatchIntent, ha]
      rw [hd]
      have hnl : a ∉ log := fun hl => ha (h2 a hl)
      have h1' : (log ++ [a]).Nodup := by
        rw [List.nodup_append]
        exact ⟨h1, List.nodup_singleton a,
          fun x hx hx' => hnl ((List.mem_singleton.mp hx') ▸ hx)⟩
      have h2' : ∀ x, x ∈ log ++ [a] → x ∈ (a :: st.acted) := by
        intro x hx
        rcases List.mem_append.mp hx with hx | hx
        · exact List.mem_cons_of_mem _ (h2 x hx)
        · exact (List.mem_singleton.mp hx) ▸ List.mem_cons_self a _
      obtain ⟨q1, q2, q3⟩ := ih ⟨a :: st.acted⟩ (log ++ [a]) h1' h2'
      refine ⟨q1, fun x hx => q2 x (List.mem_append_left _ hx), ?_⟩
      intro e he hne
      rcases List.mem_cons.mp he with h | hr
      · exact q2 e (List.mem_append_right _ (h ▸ List.mem_singleton.mpr rfl))
      · by_cases hea : e ∈ (a :: st.acted)
        · have heq : e = a := by
            rcases List.mem_cons.mp hea with h | h
            · exact h
            · exact absurd h hne
          exact q2 e (List.mem_append_right _ (heq ▸ List.mem_singleton.mpr rfl))
        · exact q3 e hr hea

deriving instance DecidableEq for Except

/-! ## Claims -/

/-- Claim C1: the capability view determined by a spirit's shape omits
exactly the shape-forbidden operations — the Circle view omits lock, unlock
and explode; the Square view omits merge, divide and explode; the Triangle
view omits merge, divide, lock and unlock — and invoking any omitted
operation through that view fails with `CapabilityError`, while every
retained operation goes through. -/
theorem c1_capability_views :
    (∀ o, omitted Shape.circles o
      = decide (o = Op.lock ∨ o = Op.unlock ∨ o = Op.explode))
    ∧ (∀ o, omitted Shape.squares o
      = decide (o = Op.merge ∨ o = Op.divide ∨ o = Op.explode))
    ∧ (∀ o, omitted Shape.triangles o
      = decide (o = Op.merge ∨ o = Op.divide ∨ o = Op.lock ∨ o = Op.unlock))
    ∧ (∀ s o, omitted s o = true →
        invokeView s o = Except.error GameError.CapabilityError)
    ∧ (∀ s o, omitted s o = false → invokeView s o = Except.ok ()) := by
  decide

/-- Witness for C1 at concrete inputs: the Circle view rejects `explode`
with `CapabilityError` and accepts `merge`. -/
theorem c1_capability_views_witness :
    invokeView Shape.circles Op.explode
      = Except.error GameError.CapabilityError
    ∧ invokeView Shape.circles Op.merge = Except.ok () :=
  ⟨c1_capability_views.2.2.2.1 Shape.circles Op.explode (by decide),
   c1_capability_views.2.2.2.2 Shape.circles Op.merge (by decide)⟩

/-- Claim C3: `outpostDamageTier` returns the low tier (range 400, cost 1,
damage 2) when energy < 500 and the high tier (range 600, cost 4, damage 8)
when energy >= 500; the boundary is inclusive at exactly 500. -/
theorem c3_outpost_tier :
    (∀ e, e < 500 → outpostDamageTier e = ⟨400, 1, 2⟩)
    ∧ (∀ e, 500 ≤ e → outpostDamageTier e = ⟨600, 4, 8⟩)
    ∧ outpostDamageTier 499 = ⟨400, 1, 2⟩
    ∧ outpostDamageTier 500 = ⟨600, 4, 8⟩ := by
  refine ⟨?_, ?_, by decide, by decide⟩
  · intro e h
    simp only [outpostDamageTier]
    rw [if_neg (by omega)]
  · intro e h
    simp only [outpostDamageTier]
    rw [if_pos h]

/-- Witness for C3 at the boundary: energy 499 yields the low tier, energy
500 the high tier, via the two conditional parts. -/
theorem c3_outpost_tier_witness :
    outpostDamageTier 499 = ⟨400, 1, 2⟩ ∧ outpostDamageTier 500 = ⟨600, 4, 8⟩ :=
  ⟨c3_outpost_tier.1 499 (by decide), c3_outpost_tier.2.1 500 (by decide)⟩

/-- Claim C5: `baseCanProduce` is true iff the sight's enemy list is empty
and the base's energy covers the current spirit cost; in particular it is
false whenever an enemy is sighted, regardless of energy. -/
theorem c5_base_can_produce :
    (∀ en cost sight, baseCanProduce en cost sight = true ↔
        sight.enemies = [] ∧ cost ≤ en)
    ∧ (∀ en cost sight, sight.enemies ≠ [] →
        baseCanProduce en cost sight = false) := by
  constructor
  · intro en cost sight
    simp [baseCanProduce, List.isEmpty_iff]
  · intro en cost sight h
    simp [baseCanProduce, List.isEmpty_iff, h]

/-- Witness for C5: with one enemy in sight, a base with ample energy still
cannot produce. -/
theorem c5_base_can_produce_witness :
    baseCanProduce 1000 100 ⟨[], ["enemy1"], []⟩ = false :=
  c5_base_can_produce.2 1000 100 ⟨[], ["enemy1"], []⟩ (by decide)

/-- Claim C9: among the four stars, exactly `star_nua` is high-yield — it
alone uses the `3 + 3%` regeneration formula — and the other three all use
the `2 + 2%` formula. -/
theorem c9_high_yield_star :
    STAR_IDS.filter isHighYield = ["star_nua"]
    ∧ STAR_IDS.filter (fun i => !isHighYield i)
      = ["star_zxq", "star_a2c", "star_p89"]
    ∧ (∀ e, starIncome "star_nua" e = roundHalfUpDiv (300 + 3 * e) 100)
    ∧ (∀ e, starIncome "star_zxq" e = roundHalfUpDiv (200 + 2 * e) 100)
    ∧ (∀ e, starIncome "star_a2c" e = roundHalfUpDiv (200 + 2 * e) 100)
    ∧ (∀ e, starIncome "star_p89" e = roundHalfUpDiv (200 + 2 * e) 100) := by
  refine ⟨by decide, by decide, fun e => ?_, fun e => ?_, fun e => ?_, fun e => ?_⟩
  all_goals simp [starIncome, isHighYield]

/-- Claim C10: the spirit command surface is exactly ten operations;
`energize` takes a `Target` (Spirit or Structure), `merge` takes only a
`Spirit`, `move` and `jump` take only a coordinate pair, `divide`, `lock`,
`unlock` and `explode` take no argument, `shout` and `set_mark` take a
string, and every command returns void. -/
theorem c10_command_surface :
    opList.length = 10 ∧ opList.Nodup ∧ (∀ o : Op, o ∈ opList)
    ∧ opSignature Op.energize = ParamKind.targetParam
    ∧ opSignature Op.merge = ParamKind.spiritParam
    ∧ ParamKind.spiritParam ≠ ParamKind.targetParam
    ∧ ParamKind.spiritParam ≠ ParamKind.coordParam
    ∧ opSignature Op.move = ParamKind.coordParam
    ∧ opSignature Op.jump = ParamKind.coordParam
    ∧ opSignature Op.divide = ParamKind.noParam
    ∧ opSignature Op.lock = ParamKind.noParam
    ∧ opSignature Op.unlock = ParamKind.noParam
    ∧ opSignature Op.explode = ParamKind.noParam
    ∧ opSignature Op.shout = ParamKind.stringParam
    ∧ opSignature Op.set_mark = ParamKind.stringParam
    ∧ (∀ o : Op, opReturn o = RetKind.voidRet) := by
  decide

/-- Claim C2: for every star other than `star_nua`, `starIncome` equals
the round-half-up of `2 + 0.02 * energy`; for `star_nua` it equals the
round-half-up of `3 + 0.03 * energy`; and the per-tick result is
`min(capacity, energy + income)`, so income never pushes energy above
capacity. -/
theorem c2_star_income :
    (∀ id e, id ≠ "star_nua" →
      starIncome id e = Nat.floor ((2 : ℚ) + 2 / 100 * e + 1 / 2))
    ∧ (∀ e, starIncome "star_nua" e
        = Nat.floor ((3 : ℚ) + 3 / 100 * e + 1 / 2))
    ∧ (∀ id e cap, starTick id e cap = min cap (e + starIncome id e))
    ∧ (∀ id e cap, starTick id e cap ≤ cap) := by
  refine ⟨starIncome_low, starIncome_high, fun id e cap => rfl,
    fun id e cap => min_le_left _ _⟩

/-- Witness for C2: at energy 25 a regular star gains 3 (2.5 rounded
half-up), and a star at 100 energy with capacity 50 is clamped to 50. -/
theorem c2_star_income_witness :
    starIncome "star_zxq" 25 = Nat.floor ((2 : ℚ) + 2 / 100 * 25 + 1 / 2)
    ∧ starTick "star_zxq" 100 50 ≤ 50 :=
  ⟨c2_star_income.1 "star_zxq" 25 (by decide),
   c2_star_income.2.2.2 "star_zxq" 100 50⟩

/-- Counterexample to claim C6 as stated: at energy 25 a regular star's
income is 3 (the round-half-up of 2.5, per the source comment "rounded to
a nearest integer"), not `floor(2 + 0.02*25) = 2`. -/
theorem c6_floor_counterexample :
    starIncome "star_zxq" 25 ≠ Nat.floor ((2 : ℚ) + 2 / 100 * 25) := by
  have h1 : starIncome "star_zxq" 25 = 3 := by decide
  have h2 : Nat.floor ((2 : ℚ) + 2 / 100 * 25) = 2 := by
    have h : ((2 : ℚ) + 2 / 100 * 25) = ((5 : ℕ) : ℚ) / ((2 : ℕ) : ℚ) := by
      norm_num
    rw [h, Nat.floor_div_nat, Nat.floor_natCast]
  rw [h1, h2]
  decide

/-- Claim C6 as amended: the per-tick gain of a star other than `star_nua`
is the round-half-up (not floor) of `2 + 0.02*energy`, for `star_nua` the
round-half-up of `3 + 0.03*energy`, and the new energy is clamped at
capacity. -/
theorem c6_star_gain_amended :
    (∀ id e cap, id ≠ "star_nua" →
      starTick id e cap = min cap (e + Nat.floor ((2 : ℚ) + 2 / 100 * e + 1 / 2)))
    ∧ (∀ e cap, starTick "star_nua" e cap
        = min cap (e + Nat.floor ((3 : ℚ) + 3 / 100 * e + 1 / 2)))
    ∧ (∀ id e cap, starTick id e cap ≤ cap) := by
  refine ⟨fun id e cap hid => ?_, fun e cap => ?_, fun id e cap => min_le_left _ _⟩
  · rw [starTick, starIncome_low id e hid]
  · rw [starTick, starIncome_high e]

/-- Witness for C6 as amended: at energy 25 and capacity 1000 a regular
star ends at `min 1000 (25 + 3) = 28`. -/
theorem c6_star_gain_amended_witness :
    starTick "star_zxq" 25 1000
      = min 1000 (25 + Nat.floor ((2 : ℚ) + 2 / 100 * 25 + 1 / 2)) :=
  c6_star_gain_amended.1 "star_zxq" 25 1000 (by decide)

/-- Claim C4: `pylonHealTargets` selects exactly the friendly spirits whose
Euclidean distance from the pylon lies in `[200, 400]` (on squared
distances, `200^2 <= d2 <= 400^2`); the number healed — 1 energy each —
never exceeds the pylon's pre-tick energy; and a pylon with 50 energy and
three friendly spirits at distances 150, 250 and 450 heals only the one at
250 and ends with 49 energy. -/
theorem c4_pylon_heal :
    (∀ p fs s, s ∈ pylonHealTargets p fs ↔
        s ∈ fs ∧ 40000 ≤ dist2 p s.pos ∧ dist2 p s.pos ≤ 160000)
    ∧ (∀ en p fs, (pylonTick en p fs).2 ≤ en)
    ∧ (∀ en p fs, (pylonTick en p fs).1 = en - (pylonTick en p fs).2)
    ∧ pylonHealTargets ⟨0, 0⟩
        [⟨"s1", ⟨150, 0⟩⟩, ⟨"s2", ⟨250, 0⟩⟩, ⟨"s3", ⟨450, 0⟩⟩]
      = [⟨"s2", ⟨250, 0⟩⟩]
    ∧ pylonTick 50 ⟨0, 0⟩
        [⟨"s1", ⟨150, 0⟩⟩, ⟨"s2", ⟨250, 0⟩⟩, ⟨"s3", ⟨450, 0⟩⟩]
      = (49, 1) := by
  refine ⟨fun p fs s => ?_, fun en p fs => ?_, fun en p fs => ?_, ?_, ?_⟩
  · simp [pylonHealTargets, inAnnulus, List.mem_filter, and_assoc]
  · simp only [pylonTick]
    exact min_le_right _ _
  · rfl
  · decide
  · decide

/-- Claim C7: the Action Gateway forwards at most one action per entity per
tick — every entity appearing among a tick's intents is forwarded exactly
once, no entity is ever forwarded twice, and an entity already recorded as
having acted is rejected with `DoubleActionError`. -/
theorem c7_single_dispatch :
    (∀ intents e, e ∈ intents → (runIntents intents).count e = 1)
    ∧ (∀ intents e, (runIntents intents).count e ≤ 1)
    ∧ (∀ st e, e ∈ st.acted →
        dispatchIntent st e = (st, Except.error GameError.DoubleActionError)) := by
  have key : ∀ intents : List String,
      (runAux intents ⟨[]⟩ []).2.Nodup
        ∧ (∀ x, x ∈ ([] : List String) → x ∈ (runAux intents ⟨[]⟩ []).2)
        ∧ (∀ e, e ∈ intents → e ∉ (⟨[]⟩ : GatewayState).acted →
            e ∈ (runAux intents ⟨[]⟩ []).2) :=
    fun intents => runAux_inv intents ⟨[]⟩ [] List.nodup_nil
      (fun x hx => absurd hx (List.not_mem_nil x))
  refine ⟨fun intents e he => ?_, fun intents e => ?_, fun st e he => ?_⟩
  · obtain ⟨q1, _, q3⟩ := key intents
    exact List.count_eq_one_of_mem q1 (q3 e he (List.not_mem_nil e))
  · obtain ⟨q1, _, _⟩ := key intents
    exact List.nodup_iff_count_le_one.mp q1 e
  · simp [dispatchIntent, he]

/-- Witness for C7: in the intent list [s1, s2, s1] the entity s1 is
forwarded exactly once, and a gateway that already recorded s1 rejects a
further s1 intent with `DoubleActionError`. -/
theorem c7_single_dispatch_witness :
    (runIntents ["s1", "s2", "s1"]).count "s1" = 1
    ∧ dispatchIntent ⟨["s1"]⟩ "s1"
      = (⟨["s1"]⟩, Except.error GameError.DoubleActionError) :=
  ⟨c7_single_dispatch.1 ["s1", "s2", "s1"] "s1" (by decide),
   c7_single_dispatch.2.2 ⟨["s1"]⟩ "s1" (by decide)⟩

/-- Claim C8: building the `WorldState` snapshot reads the host globals
without changing them, so building it twice from the same unchanged globals
within a tick yields structurally equal snapshots. -/
theorem c8_snapshot_idempotent :
    ∀ g : HostGlobals,
      (buildSnapshot g).2 = g
      ∧ (buildSnapshot (buildSnapshot g).2).1 = (buildSnapshot g).1 :=
  fun _ => ⟨rfl, rfl⟩
